import Mathlib

/-!
# Verification of the Auckland-airport landing scheduler simulation

Shallow embedding of the rolling-horizon scheduling loop (`sim.py`) and of
the aircraft kinematic state machine (`plane.py`).

Real-number quantities of the source (positions, speeds, ETAs, delays,
timestamps) are modelled over `ℚ`.  The geometry helpers of the repository
(`location.py`, `coordinates.py`, and the external `geopy` geodesic
distance) are not part of the sources; following the specification they are
"pure functions, no state" converting between a geographic and a flat
Cartesian frame and computing distances.  We model both frames as the
rational line and identify the conversions, so a position is one rational
number and the distance between two positions is `|x - y|`.
-/

/-- Tolerance used in floating-point comparisons (`tol = 1e-6` in the source). -/
def tol : ℚ := 1 / 1000000

/-- Seconds per minute (`SEC_PER_MIN = 60`). -/
def SEC_PER_MIN : ℚ := 60

/-- Modelled from the spec: the distance function of the `location` module
(not under the sources), over the 1-dimensional Cartesian frame. -/
def distQ (a b : ℚ) : ℚ := |a - b|

/-- State of a physics-driven aircraft (`Plane` in `plane.py`).

The Python object stores its predecessor as an object reference; the
embedding stores the predecessor's index into the fleet list instead
(`pred : Option ℕ`), and fleet-level functions resolve it.  The field
`id_arr` is only ever assigned inside `step` in the source; we initialise
it to `0` at construction.  When `apt` is `none` the source never assigns
`eta` in `Plane.__init__` (the `Arrival` subclass overwrites it); we use
`0` as the placeholder value in that case. -/
structure Plane where
  name : String
  pos : ℚ
  class_num : ℕ
  delay_cost : ℚ
  landed : Bool
  speed : ℚ
  max_delay : ℚ
  swap_time : ℚ
  apt : Option ℚ
  pred : Option ℕ
  arr_time : Option ℚ
  eta : ℚ
  delay : ℚ
  arrived : Bool
  path : List ℚ
  id_arr : ℚ
  deriving DecidableEq

/-- The `arrived` flag computed by `Plane.__init__`:
`False` iff `arr_time != None and arr_time > 1`. -/
def arrivedInit (arr_time : Option ℚ) : Bool :=
  match arr_time with
  | some t => if t > 1 then false else true
  | none => true

/-- `Plane.get_eta`: geodesic distance to the airport divided by the speed
(the geodesic distance is modelled by `distQ`, see the file header). -/
def Plane.get_eta (p : Plane) : ℚ :=
  distQ p.pos (p.apt.getD 0) / p.speed

/-- `Plane.__init__`.  `pred` is the referenced predecessor's state (used
for the ETA computation, as the source reads `self.pred.eta`) and
`predIdx` is its index in the fleet list (the embedded form of the stored
object reference). -/
def mkPlane (name : String) (pos : ℚ) (class_num : ℕ) (apt : Option ℚ)
    (delay_cost speed max_delay swap_time : ℚ) (arr_time : Option ℚ)
    (pred : Option Plane) (predIdx : Option ℕ) : Plane :=
  let p0 : Plane :=
    { name := name, pos := pos, class_num := class_num,
      delay_cost := delay_cost, landed := false, speed := speed,
      max_delay := max_delay, swap_time := swap_time, apt := apt,
      pred := predIdx, arr_time := arr_time, eta := 0, delay := 0,
      arrived := arrivedInit arr_time, path := [pos], id_arr := 0 }
  match apt with
  | some _ =>
    let e := p0.get_eta
    let e' := match pred with
      | some pr => e + (pr.eta + 10)
      | none => e
    { p0 with eta := e' }
  | none => p0

/-- `Plane.step`: one kinematic step toward the airport.  The KML/logging
side effects of the source are dropped; the position/`landed`/`id_arr`/
path/`delay` updates are kept.  The source dereferences `self.apt`
unconditionally (it is only called on physics aircraft, which have one);
`getD 0` stands for that dereference. -/
def Plane.step (p : Plane) : Plane :=
  let ap := p.apt.getD 0
  let d := distQ p.pos ap
  if d + tol ≥ p.eta * p.speed then
    let p1 :=
      if p.speed ≤ tol + d then
        { p with pos := p.pos + p.speed * (ap - p.pos) / d }
      else
        { p with pos := ap, landed := true }
    { p1 with id_arr := distQ p1.pos ap / p1.speed,
              path := p1.path ++ [p1.pos], delay := 0 }
  else
    { p with delay := d / p.speed - p.eta }

/-- `Plane.update`: one simulated-minute update.  `predLanded` is the value
the source computes from `self.pred` (`True` when there is no predecessor,
else the predecessor's `landed` flag); the fleet-level resolution is
`predLandedOf` below. -/
def Plane.update (predLanded : Bool) (minute : ℚ) (p : Plane) : Plane :=
  if !p.landed && p.arrived then
    let p1 := if predLanded then p.step else p
    { p1 with eta := p1.eta - 1 }
  else if !p.arrived && p.arr_time.isSome then
    if minute + 1 ≥ p.arr_time.getD 0 then { p with arrived := true } else p
  else p

/-- Resolution of `pred_landed` in `Plane.update` over a fleet list: `true`
when the aircraft has no predecessor, else the predecessor's `landed` flag.
(An out-of-range index cannot arise in the source, where the predecessor is
a direct object reference; `getD true` covers that impossible case.) -/
def predLandedOf (fleet : List Plane) (p : Plane) : Bool :=
  match p.pred with
  | none => true
  | some i => ((fleet.get? i).map Plane.landed).getD true

/-- The eligible set `E` of a scheduling cycle:
`[pl for pl in plane if not pl.landed and pl.arrived]`. -/
def validOf (plane : List Plane) : List Plane :=
  plane.filter (fun pl => !pl.landed && pl.arrived)

/-- One entry of the `depends` list of `sim.py`:
`valid.index(pl.pred)+1 if pl.pred and not pl.pred.landed else 0`.
`none` models the `ValueError` raised by `valid.index` when the (existing,
unlanded) predecessor is not a member of `valid`. -/
def dependsEntry (plane valid : List Plane) (pl : Plane) : Option ℕ :=
  match pl.pred with
  | none => some 0
  | some i =>
    match plane.get? i with
    | none => none
    | some pr =>
      if pr.landed then some 0
      else if pr ∈ valid then some (valid.indexOf pr + 1) else none

/-- The `depends` list comprehension, aborting on the first failing entry. -/
def dependsList (plane valid : List Plane) : List Plane → Option (List ℕ)
  | [] => some []
  | pl :: rest =>
    match dependsEntry plane valid pl, dependsList plane valid rest with
    | some d, some ds => some (d :: ds)
    | _, _ => none

/-- The `depends` array built by a scheduling cycle over the fleet list. -/
def dependsOf (plane : List Plane) : Option (List ℕ) :=
  dependsList plane (validOf plane) (validOf plane)

/-- Follows the claim's words, for comparison with `dependsOf`: the
dependency index is the 1-based position within `E` of the predecessor if
that predecessor is also in `E` and not landed, else 0 (never failing). -/
def dependsSpecEntry (plane valid : List Plane) (pl : Plane) : ℕ :=
  match pl.pred with
  | none => 0
  | some i =>
    match plane.get? i with
    | none => 0
    | some pr =>
      if pr ∈ valid ∧ ¬pr.landed then valid.indexOf pr + 1 else 0

/-- The dependency array as the claim describes it (total, never failing). -/
def dependsSpec (plane : List Plane) : List ℕ :=
  (validOf plane).map (dependsSpecEntry plane (validOf plane))

/-- The pairwise processing-time matrix of a cycle:
`[[sep_t[i.class_num-1, k.class_num-1] if i.name != k.name else 0
   for k in valid] for i in valid]`.
The separation matrix is passed as the lookup function `sep` (its
population by `loaddata` is external). -/
def procT (sep : ℕ → ℕ → ℚ) (valid : List Plane) : List (List ℚ) :=
  valid.map (fun i => valid.map (fun k =>
    if i.name ≠ k.name then sep (i.class_num - 1) (k.class_num - 1) else 0))

/-- Entry `(i, j)` of a matrix given as a list of rows. -/
def entryAt (m : List (List ℚ)) (i j : ℕ) : Option ℚ :=
  (m.get? i).bind (fun r => r.get? j)

/-- The apply step of a scheduling cycle:
`for pl,sched in zip(valid,schedule): if not pl.pred: pl.eta = sched`. -/
def applySchedule (valid : List Plane) (schedule : List ℚ) : List Plane :=
  (valid.zip schedule).map (fun pr =>
    if pr.1.pred = none then { pr.1 with eta := pr.2 } else pr.1)

/-- A recorded trail waypoint of a track-replay aircraft: its timestamp
(seconds) and its position (the geographic fields `lng`/`lat` collapse to
one coordinate in the 1-dimensional frame, see the file header). -/
structure TrailPt where
  ts : ℚ
  pos : ℚ
  deriving DecidableEq, Inhabited

/-- `np.interp` at a single point: linear interpolation with clamping
outside the interval. -/
def interp (x x0 x1 y0 y1 : ℚ) : ℚ :=
  if x ≤ x0 then y0
  else if x ≥ x1 then y1
  else y0 + (x - x0) * (y1 - y0) / (x1 - x0)

/-- Worker of `Arrival.get_point`: scan the trail from its head (the
terminal point) onward; `prev` is the previously visited point
(`trail[idx-1]`), `none` at index 0. -/
def getPointAux (minute : ℚ) : List TrailPt → Option TrailPt → Option TrailPt
  | [], _ => none
  | p :: rest, prev =>
    if p.ts / SEC_PER_MIN ≤ minute + 1 then
      match prev with
      | none => some p
      | some p1 =>
        some { ts := interp (minute * SEC_PER_MIN) p.ts p1.ts p.ts p1.ts,
               pos := interp (minute * SEC_PER_MIN) p.ts p1.ts p.pos p1.pos }
    else getPointAux minute rest (some p)

/-- `Arrival.get_point`. -/
def getPoint (trail : List TrailPt) (minute : ℚ) : Option TrailPt :=
  getPointAux minute trail none

/-- State of a track-replay aircraft (`Arrival` in `plane.py`).  Such an
aircraft has no destination airport and no predecessor (its `Plane`
constructor call passes `apt = None` and leaves `pred = None`). -/
structure Arrival where
  name : String
  pos : ℚ
  class_num : ℕ
  delay_cost : ℚ
  landed : Bool
  speed : ℚ
  max_delay : ℚ
  arr_time : Option ℚ
  eta : ℚ
  delay : ℚ
  arrived : Bool
  finalDest : ℚ
  finalTime : ℚ
  trail : List TrailPt
  id_arr : ℚ
  path : List ℚ
  deriving DecidableEq

/-- `Arrival.__init__`: the final destination and final time come from the
terminal trail point `trail[0]` (`headI`; an empty trail raises in the
source), and `eta` is initialised to that terminal timestamp. -/
def mkArrival (name : String) (pos : ℚ) (class_num : ℕ) (trail : List TrailPt)
    (delay_cost speed max_delay : ℚ) (arr_time : Option ℚ) : Arrival :=
  let fd := trail.headI.pos
  { name := name, pos := pos, class_num := class_num,
    delay_cost := delay_cost, landed := false, speed := speed,
    max_delay := max_delay, arr_time := arr_time,
    eta := trail.headI.ts, delay := 0, arrived := arrivedInit arr_time,
    finalDest := fd, finalTime := trail.headI.ts, trail := trail,
    id_arr := distQ pos fd / speed, path := [pos] }

/-- `Arrival.step`: land (snapping onto the final destination) when
`delay + eta <= minute + 1`; otherwise record the signed delay and move to
the interpolated trail point; in both cases refresh `id_arr` last. -/
def Arrival.step (minute : ℚ) (a : Arrival) : Arrival :=
  let a2 :=
    if a.delay + a.eta ≤ minute + 1 then
      { a with landed := true, pos := a.finalDest }
    else
      let a1 := { a with delay := distQ a.pos a.finalDest / a.speed - a.eta }
      match getPoint a.trail (minute + 1) with
      | some np => { a1 with pos := np.pos }
      | none => a1
  { a2 with id_arr := distQ a2.pos a2.finalDest / a2.speed }

/-- The inherited `Plane.update` as executed on an `Arrival` (its `pred`
is always `None`, so `pred_landed` is `True` and its own `step` runs). -/
def Arrival.update (minute : ℚ) (a : Arrival) : Arrival :=
  if !a.landed && a.arrived then
    let a1 := Arrival.step minute a
    { a1 with eta := a1.eta - 1 }
  else if !a.arrived && a.arr_time.isSome then
    if minute + 1 ≥ a.arr_time.getD 0 then { a with arrived := true } else a
  else a

/-! ## Concrete aircraft used in witnesses and counterexamples -/

/-- A physics aircraft far from its airport with a large ETA (holding case). -/
def planeC3 : Plane :=
  { name := "H", pos := 100, class_num := 1, delay_cost := 1, landed := false,
    speed := 1, max_delay := 1000, swap_time := 10, apt := some 0,
    pred := none, arr_time := none, eta := 1000, delay := 0, arrived := true,
    path := [100], id_arr := 0 }

/-- An unlanded predecessor aircraft. -/
def planeQ4 : Plane :=
  { name := "Q", pos := 5, class_num := 1, delay_cost := 1, landed := false,
    speed := 1, max_delay := 1000, swap_time := 10, apt := some 0,
    pred := none, arr_time := none, eta := 5, delay := 0, arrived := true,
    path := [5], id_arr := 0 }

/-- An arrived aircraft gated behind `planeQ4` (fleet index 0), with ETA 0. -/
def planeP4 : Plane :=
  { name := "P", pos := 50, class_num := 1, delay_cost := 1, landed := false,
    speed := 1, max_delay := 1000, swap_time := 10, apt := some 0,
    pred := some 0, arr_time := none, eta := 0, delay := 0, arrived := true,
    path := [50], id_arr := 0 }

/-- A not-yet-arrived aircraft with configured arrival time 5. -/
def planeC6 : Plane :=
  { name := "R", pos := 50, class_num := 1, delay_cost := 1, landed := false,
    speed := 13000, max_delay := 1000, swap_time := 10, apt := some 0,
    pred := none, arr_time := some 5, eta := 20, delay := 0, arrived := false,
    path := [50], id_arr := 0 }

/-- C3: on a tick where an arrived, unlanded aircraft with a landed (or
absent) predecessor takes its kinematic step and
`required = dist/speed < eta` (within tolerance, i.e. the source's branch
`dist + tol < eta * speed`), the position is unchanged and the recorded
delay is `required - eta`, a negative value. -/
theorem holding_tick_freezes_position (p : Plane) (a m : ℚ)
    (hapt : p.apt = some a) (harr : p.arrived = true) (hl : p.landed = false)
    (hs : 0 < p.speed)
    (hhold : ¬(distQ p.pos a + tol ≥ p.eta * p.speed)) :
    (Plane.update true m p).pos = p.pos ∧
    (Plane.update true m p).delay = distQ p.pos a / p.speed - p.eta ∧
    (Plane.update true m p).delay < 0 := by
  have hb : distQ p.pos a + tol < p.eta * p.speed := not_le.mp hhold
  have htol : (0 : ℚ) < tol := by norm_num [tol]
  have hdiv : distQ p.pos a / p.speed < p.eta := by
    rw [div_lt_iff₀ hs]
    linarith
  refine ⟨?_, ?_, ?_⟩
  · simp [Plane.update, harr, hl, Plane.step, hapt, if_neg hhold]
  · simp [Plane.update, harr, hl, Plane.step, hapt, if_neg hhold]
  · simp [Plane.update, harr, hl, Plane.step, hapt, if_neg hhold]
    linarith

/-- C4 witnessed fact: a tick on an arrived, unlanded aircraft whose
predecessor exists and has not landed leaves the position unchanged while
decrementing the ETA by exactly 1 (which can drive the ETA negative). -/
theorem gated_tick_decrements_eta (fleet : List Plane) (p q : Plane)
    (i : ℕ) (m : ℚ) (hp : p.pred = some i) (hq : fleet.get? i = some q)
    (hql : q.landed = false) (ha : p.arrived = true) (hl : p.landed = false) :
    (Plane.update (predLandedOf fleet p) m p).pos = p.pos ∧
    (Plane.update (predLandedOf fleet p) m p).eta = p.eta - 1 ∧
    (p.eta ≤ 0 → (Plane.update (predLandedOf fleet p) m p).eta < 0) := by
  have hpl : predLandedOf fleet p = false := by
    rw [List.get?_eq_getElem?] at hq
    simp [predLandedOf, hp, hq, hql]
  rw [hpl]
  refine ⟨?_, ?_, ?_⟩ <;> simp [Plane.update, ha, hl]
  intro h
  linarith

/-- C3 witness: the holding theorem applied to `planeC3` at minute 0. -/
theorem holding_tick_freezes_position_witness :
    (Plane.update true 0 planeC3).pos = planeC3.pos ∧
    (Plane.update true 0 planeC3).delay =
      distQ planeC3.pos 0 / planeC3.speed - planeC3.eta ∧
    (Plane.update true 0 planeC3).delay < 0 :=
  holding_tick_freezes_position planeC3 0 0 rfl rfl rfl (by norm_num [planeC3])
    (by norm_num [planeC3, distQ, tol])

/-- C4 witness: the gating theorem applied to `planeP4` gated behind
`planeQ4`, whose ETA 0 is driven to -1. -/
theorem gated_tick_decrements_eta_witness :
    (Plane.update (predLandedOf [planeQ4] planeP4) 0 planeP4).pos =
      planeP4.pos ∧
    (Plane.update (predLandedOf [planeQ4] planeP4) 0 planeP4).eta =
      planeP4.eta - 1 ∧
    (Plane.update (predLandedOf [planeQ4] planeP4) 0 planeP4).eta < 0 :=
  ⟨(gated_tick_decrements_eta [planeQ4] planeP4 planeQ4 0 0 rfl rfl rfl rfl
      rfl).1,
   (gated_tick_decrements_eta [planeQ4] planeP4 planeQ4 0 0 rfl rfl rfl rfl
      rfl).2.1,
   (gated_tick_decrements_eta [planeQ4] planeP4 planeQ4 0 0 rfl rfl rfl rfl
      rfl).2.2 (by norm_num [planeP4])⟩

/-- C6 counterexample: `planeC6` has configured arrival time 5, yet the
update at simulated minute 4 (a minute strictly before the arrival time)
already sets `arrived`, because the source tests `minute + 1 >= arr_time`. -/
theorem arrival_release_counterexample :
    (Plane.update true 4 planeC6).arrived = true ∧ ¬((4 : ℚ) ≥ 5) := by
  constructor
  · norm_num [Plane.update, planeC6]
  · norm_num

/-- C6 amended: a not-yet-arrived aircraft with a configured arrival time
becomes arrived on the tick at minute `m` exactly when `m + 1 ≥ arr_time`
(one minute earlier than "minute reaches the arrival time"). -/
theorem arrival_release_amended (p : Plane) (pl : Bool) (m t : ℚ)
    (h1 : p.arrived = false) (h2 : p.arr_time = some t) :
    (Plane.update pl m p).arrived = true ↔ m + 1 ≥ t := by
  simp [Plane.update, h1, h2]
  split_ifs with h
  · simpa using h
  · simp [h1, h]

/-- C6 witness: the amended release theorem applied at minute 4 with
arrival time 5 (`4 + 1 ≥ 5`). -/
theorem arrival_release_amended_witness :
    (Plane.update true 4 planeC6).arrived = true :=
  (arrival_release_amended planeC6 true 4 5 rfl rfl).mpr (by norm_num)

/-- Helper: `Plane.step` never resets `landed`. -/
lemma step_landed_mono (p : Plane) (h : p.landed = true) :
    (Plane.step p).landed = true := by
  simp only [Plane.step]
  split_ifs <;> simp [h]

/-- Helper: `Plane.step` never changes `arrived`. -/
lemma step_arrived_eq (p : Plane) : (Plane.step p).arrived = p.arrived := by
  simp only [Plane.step]
  split_ifs <;> simp

/-- Helper: `Plane.update` never resets `landed`. -/
lemma update_landed_mono (p : Plane) (pl : Bool) (m : ℚ)
    (h : p.landed = true) : (Plane.update pl m p).landed = true := by
  simp only [Plane.update]
  split_ifs <;> simp [h, step_landed_mono p h]

/-- Helper: `Plane.update` never resets `arrived`. -/
lemma update_arrived_mono (p : Plane) (pl : Bool) (m : ℚ)
    (h : p.arrived = true) : (Plane.update pl m p).arrived = true := by
  simp only [Plane.update]
  split_ifs <;> simp [h, step_arrived_eq]

/-- Helper: `Arrival.step` never resets `landed`. -/
lemma arrStep_landed_mono (a : Arrival) (m : ℚ) (h : a.landed = true) :
    (Arrival.step m a).landed = true := by
  simp only [Arrival.step]
  split_ifs
  · simp
  · cases hg : getPoint a.trail (m + 1) <;> simp [hg, h]

/-- Helper: `Arrival.step` never changes `arrived`. -/
lemma arrStep_arrived_eq (a : Arrival) (m : ℚ) :
    (Arrival.step m a).arrived = a.arrived := by
  simp only [Arrival.step]
  split_ifs
  · simp
  · cases hg : getPoint a.trail (m + 1) <;> simp [hg]

/-- Helper: `Arrival.update` never resets `landed`. -/
lemma arrUpdate_landed_mono (a : Arrival) (m : ℚ) (h : a.landed = true) :
    (Arrival.update m a).landed = true := by
  simp only [Arrival.update]
  split_ifs
  · simpa using arrStep_landed_mono a m h
  · simpa using h
  · exact h
  · exact h

/-- Helper: `Arrival.update` never resets `arrived`. -/
lemma arrUpdate_arrived_mono (a : Arrival) (m : ℚ) (h : a.arrived = true) :
    (Arrival.update m a).arrived = true := by
  simp only [Arrival.update]
  split_ifs
  · simpa [arrStep_arrived_eq] using h
  · simp
  · exact h
  · exact h

/-- C7: `landed` and `arrived` are one-way latches across every
update/step operation, for both aircraft variants: once true, each flag
stays true after any further `Plane.step`, `Plane.update`,
`Arrival.step` or `Arrival.update`. -/
theorem flags_are_one_way_latches (p : Plane) (a : Arrival) (pl : Bool)
    (m : ℚ) :
    (p.landed = true → (Plane.update pl m p).landed = true) ∧
    (p.arrived = true → (Plane.update pl m p).arrived = true) ∧
    (p.landed = true → (Plane.step p).landed = true) ∧
    (p.arrived = true → (Plane.step p).arrived = true) ∧
    (a.landed = true → (Arrival.update m a).landed = true) ∧
    (a.arrived = true → (Arrival.update m a).arrived = true) ∧
    (a.landed = true → (Arrival.step m a).landed = true) ∧
    (a.arrived = true → (Arrival.step m a).arrived = true) :=
  ⟨update_landed_mono p pl m, update_arrived_mono p pl m,
   step_landed_mono p, fun h => (step_arrived_eq p).trans h,
   arrUpdate_landed_mono a m, arrUpdate_arrived_mono a m,
   arrStep_landed_mono a m, fun h => (arrStep_arrived_eq a m).trans h⟩

/-- Aircraft already landed and arrived, used by the C7 witness. -/
def planeC7 : Plane :=
  { name := "L", pos := 0, class_num := 1, delay_cost := 1, landed := true,
    speed := 1, max_delay := 1000, swap_time := 10, apt := some 0,
    pred := none, arr_time := none, eta := 0, delay := 0, arrived := true,
    path := [0], id_arr := 0 }

/-- Track-replay aircraft already landed and arrived, used by the C7
witness. -/
def arrivalC7 : Arrival :=
  { name := "M", pos := 2, class_num := 1, delay_cost := 1, landed := true,
    speed := 1, max_delay := 1000, arr_time := none, eta := 3, delay := 0,
    arrived := true, finalDest := 2, finalTime := 3,
    trail := [{ ts := 3, pos := 2 }], id_arr := 0, path := [2] }

/-- C7 witness: the latch theorem applied to `planeC7` and `arrivalC7`,
whose flags are both already true. -/
theorem flags_are_one_way_latches_witness :
    (Plane.update true 0 planeC7).landed = true ∧
    (Plane.update true 0 planeC7).arrived = true ∧
    (Plane.step planeC7).landed = true ∧
    (Plane.step planeC7).arrived = true ∧
    (Arrival.update 0 arrivalC7).landed = true ∧
    (Arrival.update 0 arrivalC7).arrived = true ∧
    (Arrival.step 0 arrivalC7).landed = true ∧
    (Arrival.step 0 arrivalC7).arrived = true :=
  ⟨(flags_are_one_way_latches planeC7 arrivalC7 true 0).1 rfl,
   (flags_are_one_way_latches planeC7 arrivalC7 true 0).2.1 rfl,
   (flags_are_one_way_latches planeC7 arrivalC7 true 0).2.2.1 rfl,
   (flags_are_one_way_latches planeC7 arrivalC7 true 0).2.2.2.1 rfl,
   (flags_are_one_way_latches planeC7 arrivalC7 true 0).2.2.2.2.1 rfl,
   (flags_are_one_way_latches planeC7 arrivalC7 true 0).2.2.2.2.2.1 rfl,
   (flags_are_one_way_latches planeC7 arrivalC7 true 0).2.2.2.2.2.2.1 rfl,
   (flags_are_one_way_latches planeC7 arrivalC7 true 0).2.2.2.2.2.2.2 rfl⟩

/-- C8: a track-replay step at minute `m` lands the aircraft, snapping it
exactly onto its final destination, if and only if
`delay + eta ≤ m + 1` (the "current time" `m + 1` is at or after the
terminal recorded waypoint time — to which `eta` is initialised by the
constructor, see the last two conjuncts — plus the outstanding delay);
otherwise it does not land and records
`distance-to-final-destination / speed − eta` as its delay. -/
theorem replay_step_lands_iff (a : Arrival) (m : ℚ) (hl : a.landed = false)
    (nm : String) (pos0 : ℚ) (cn : ℕ) (trail : List TrailPt)
    (dc sp md : ℚ) (at0 : Option ℚ) :
    (((Arrival.step m a).landed = true ∧ (Arrival.step m a).pos = a.finalDest)
      ↔ a.delay + a.eta ≤ m + 1) ∧
    (¬(a.delay + a.eta ≤ m + 1) →
      (Arrival.step m a).landed = false ∧
      (Arrival.step m a).delay = distQ a.pos a.finalDest / a.speed - a.eta) ∧
    (mkArrival nm pos0 cn trail dc sp md at0).eta = trail.headI.ts ∧
    (mkArrival nm pos0 cn trail dc sp md at0).finalDest = trail.headI.pos := by
  refine ⟨?_, ?_, rfl, rfl⟩
  · by_cases h : a.delay + a.eta ≤ m + 1
    · simp [Arrival.step, h]
    · cases hg : getPoint a.trail (m + 1) <;>
        simp [Arrival.step, h, hg, hl]
  · intro h
    cases hg : getPoint a.trail (m + 1) <;>
      simp [Arrival.step, h, hg, hl]

/-- Track-replay aircraft used by the C8 witness. -/
def arrivalC8 : Arrival :=
  { name := "T", pos := 7, class_num := 1, delay_cost := 1, landed := false,
    speed := 1, max_delay := 1000, arr_time := none, eta := 3, delay := 0,
    arrived := true, finalDest := 2, finalTime := 3,
    trail := [{ ts := 3, pos := 2 }], id_arr := 5, path := [7] }

/-- C8 witness: at minute 5 the condition `0 + 3 ≤ 5 + 1` holds, so the
step lands `arrivalC8` exactly on its final destination. -/
theorem replay_step_lands_iff_witness :
    (Arrival.step 5 arrivalC8).landed = true ∧
    (Arrival.step 5 arrivalC8).pos = arrivalC8.finalDest :=
  ((replay_step_lands_iff arrivalC8 5 rfl "T" 7 1 [{ ts := 3, pos := 2 }]
      1 1 1000 none).1).mpr (by norm_num [arrivalC8])

/-- Helper: pointwise description of the apply step of a cycle. -/
lemma applySchedule_get? :
    ∀ (valid : List Plane) (sch : List ℚ) (i : ℕ) (pl : Plane) (s : ℚ),
      valid.get? i = some pl → sch.get? i = some s →
      (applySchedule valid sch).get? i =
        some (if pl.pred = none then { pl with eta := s } else pl)
  | [], _, _, _, _, h, _ => by simp at h
  | _ :: _, [], _, _, _, _, h => by simp at h
  | v :: vs, c :: cs, 0, pl, s, h1, h2 => by
    rw [List.get?_cons_zero, Option.some.injEq] at h1 h2
    subst h1
    subst h2
    simp [applySchedule]
  | v :: vs, c :: cs, i + 1, pl, s, h1, h2 => by
    rw [List.get?_cons_succ] at h1 h2
    have ih := applySchedule_get? vs cs i pl s h1 h2
    simpa [applySchedule] using ih

/-- C1 amended: after the apply step, an eligible aircraft receives the
Schedule Result entry exactly when it has no predecessor reference at all;
every aircraft with a predecessor — whether that predecessor has landed or
not — retains its pre-cycle ETA. -/
theorem apply_overwrites_only_predless (valid : List Plane) (sch : List ℚ)
    (i : ℕ) (pl : Plane) (s : ℚ)
    (h1 : valid.get? i = some pl) (h2 : sch.get? i = some s) :
    ((applySchedule valid sch).get? i).map Plane.eta =
      some (if pl.pred = none then s else pl.eta) := by
  rw [applySchedule_get? valid sch i pl s h1 h2]
  by_cases hp : pl.pred = none <;> simp [hp]

/-- A landed predecessor aircraft (fleet index 0 of `fleetC1`). -/
def planeA1 : Plane :=
  { name := "A1", pos := 0, class_num := 1, delay_cost := 1, landed := true,
    speed := 1, max_delay := 1000, swap_time := 10, apt := some 0,
    pred := none, arr_time := none, eta := 0, delay := 0, arrived := true,
    path := [0], id_arr := 0 }

/-- An eligible aircraft whose predecessor `planeA1` has landed. -/
def planeB1 : Plane :=
  { name := "B1", pos := 9, class_num := 1, delay_cost := 1, landed := false,
    speed := 1, max_delay := 1000, swap_time := 10, apt := some 0,
    pred := some 0, arr_time := none, eta := 100, delay := 0, arrived := true,
    path := [9], id_arr := 0 }

/-- Fleet refuting the original C1 claim. -/
def fleetC1 : List Plane := [planeA1, planeB1]

/-- C1 counterexample: `planeB1` is eligible with dependency index 0 (its
predecessor has landed), yet the apply step does not overwrite its ETA with
the Schedule Result entry 42 — it keeps its pre-cycle ETA 100 — because the
source only overwrites aircraft with no predecessor reference. -/
theorem apply_counterexample :
    validOf fleetC1 = [planeB1] ∧
    dependsOf fleetC1 = some [0] ∧
    (applySchedule (validOf fleetC1) [42]).map Plane.eta = [100] ∧
    (100 : ℚ) ≠ 42 := by
  refine ⟨by decide, by decide, by decide, by norm_num⟩

/-- C1 witness: an aircraft without predecessor has its ETA overwritten by
the apply step. -/
theorem apply_overwrites_only_predless_witness :
    ((applySchedule [planeA1] [7]).get? 0).map Plane.eta =
      some (if planeA1.pred = none then (7 : ℚ) else planeA1.eta) :=
  apply_overwrites_only_predless [planeA1] [7] 0 planeA1 7 rfl rfl

/-- Helper: a successful `dependsEntry` agrees with the claim's entry. -/
lemma dependsEntry_eq_spec (plane valid : List Plane) (pl : Plane) (d : ℕ)
    (h : dependsEntry plane valid pl = some d) :
    d = dependsSpecEntry plane valid pl := by
  unfold dependsEntry at h
  unfold dependsSpecEntry
  cases hp : pl.pred with
  | none =>
    simp only [hp, Option.some.injEq] at h
    simp only [hp]
    omega
  | some i =>
    simp only [hp] at h ⊢
    cases hg : plane.get? i with
    | none =>
      have hg' : plane[i]? = none := by
        rw [← List.get?_eq_getElem?]
        exact hg
      simp [hg, hg'] at h
    | some pr =>
      have hg' : plane[i]? = some pr := by
        rw [← List.get?_eq_getElem?]
        exact hg
      simp only [hg, hg'] at h ⊢
      split_ifs at h ⊢ <;> simp_all

/-- Helper: when the depends construction succeeds, it computes exactly
the claim's entries. -/
lemma dependsList_eq_map (plane valid : List Plane) :
    ∀ (l : List Plane) (ds : List ℕ),
      dependsList plane valid l = some ds →
      ds = l.map (dependsSpecEntry plane valid)
  | [], ds, h => by
    simp only [dependsList, Option.some.injEq] at h
    simp [← h]
  | pl :: rest, ds, h => by
    unfold dependsList at h
    cases he : dependsEntry plane valid pl with
    | none => simp [he] at h
    | some d =>
      cases hr : dependsList plane valid rest with
      | none => simp [he, hr] at h
      | some ds2 =>
        simp only [he, hr, Option.some.injEq] at h
        have ih := dependsList_eq_map plane valid rest ds2 hr
        have hd := dependsEntry_eq_spec plane valid pl d he
        simp [← h, hd, ih]

/-- C2 amended: whenever the depends construction succeeds, the dependency
index of each eligible aircraft is the 1-based position within `E` of its
predecessor if that predecessor is in `E` and not landed, else 0; the
construction fails (a `ValueError` from `valid.index`) precisely when some
eligible aircraft has an unlanded predecessor outside `E`, instead of
producing 0 there. -/
theorem depends_success_matches_claim (plane : List Plane) (ds : List ℕ)
    (h : dependsOf plane = some ds) : ds = dependsSpec plane := by
  have hm := dependsList_eq_map plane (validOf plane) (validOf plane) ds h
  simpa [dependsSpec] using hm

/-- A not-yet-arrived, unlanded predecessor (fleet index 0 of `fleetC2`). -/
def planeA2 : Plane :=
  { name := "A2", pos := 3, class_num := 1, delay_cost := 1, landed := false,
    speed := 1, max_delay := 1000, swap_time := 10, apt := some 0,
    pred := none, arr_time := some 10, eta := 50, delay := 0,
    arrived := false, path := [3], id_arr := 0 }

/-- An eligible aircraft depending on the absent `planeA2`. -/
def planeB2 : Plane :=
  { name := "B2", pos := 8, class_num := 1, delay_cost := 1, landed := false,
    speed := 1, max_delay := 1000, swap_time := 10, apt := some 0,
    pred := some 0, arr_time := none, eta := 60, delay := 0, arrived := true,
    path := [8], id_arr := 0 }

/-- Fleet refuting the original C2 claim. -/
def fleetC2 : List Plane := [planeA2, planeB2]

/-- C2 counterexample: `planeB2` is eligible and its predecessor `planeA2`
is unlanded but not in `E` (not yet arrived); building the instance fails
(`valid.index` raises), whereas the claim prescribes success with
dependency index 0. -/
theorem depends_counterexample :
    dependsOf fleetC2 = none ∧ dependsSpec fleetC2 = [0] := by
  refine ⟨by decide, by decide⟩

/-- An eligible aircraft without predecessor (fleet index 0 of `fleetW2`). -/
def planeA3 : Plane :=
  { name := "A3", pos := 4, class_num := 1, delay_cost := 1, landed := false,
    speed := 1, max_delay := 1000, swap_time := 10, apt := some 0,
    pred := none, arr_time := none, eta := 50, delay := 0, arrived := true,
    path := [4], id_arr := 0 }

/-- An eligible aircraft depending on the eligible `planeA3`. -/
def planeB3 : Plane :=
  { name := "B3", pos := 11, class_num := 2, delay_cost := 1, landed := false,
    speed := 1, max_delay := 1000, swap_time := 10, apt := some 0,
    pred := some 0, arr_time := none, eta := 70, delay := 0, arrived := true,
    path := [11], id_arr := 0 }

/-- Fleet on which the depends construction succeeds. -/
def fleetW2 : List Plane := [planeA3, planeB3]

/-- C2 witness: on `fleetW2` the construction succeeds with `[0, 1]`,
matching the claim's entries. -/
theorem depends_success_matches_claim_witness :
    [0, 1] = dependsSpec fleetW2 :=
  depends_success_matches_claim fleetW2 [0, 1] (by decide)

/-- C5 amended: in every cycle's instance, the processing-time entry for
two eligible aircraft at distinct positions equals the Separation-Matrix
lookup on their classes provided their names differ — in particular
whenever aircraft names are pairwise distinct — and every diagonal entry
is 0 (the source compares names, not positions). -/
theorem procT_matches_separation (sep : ℕ → ℕ → ℚ) (vs : List Plane)
    (hn : vs.Pairwise (fun x y => x.name ≠ y.name))
    (i j : ℕ) (x y : Plane)
    (hx : vs.get? i = some x) (hy : vs.get? j = some y) (hij : i ≠ j) :
    entryAt (procT sep vs) i j =
      some (sep (x.class_num - 1) (y.class_num - 1)) ∧
    entryAt (procT sep vs) j j = some 0 := by
  obtain ⟨hi, hxe⟩ := List.get?_eq_some.mp hx
  obtain ⟨hj, hye⟩ := List.get?_eq_some.mp hy
  have hname : x.name ≠ y.name := by
    rcases Nat.lt_or_ge i j with hlt | hge
    · have hr := List.pairwise_iff_get.mp hn ⟨i, hi⟩ ⟨j, hj⟩ (by simpa using hlt)
      rwa [hxe, hye] at hr
    · have hgt : j < i := lt_of_le_of_ne hge (Ne.symm hij)
      have hr := List.pairwise_iff_get.mp hn ⟨j, hj⟩ ⟨i, hi⟩ (by simpa using hgt)
      rw [hxe, hye] at hr
      exact hr.symm
  have hx' : vs[i]? = some x := by
    rw [← List.get?_eq_getElem?]
    exact hx
  have hy' : vs[j]? = some y := by
    rw [← List.get?_eq_getElem?]
    exact hy
  constructor
  · simp [entryAt, procT, List.getElem?_map, hx', hy', hname]
  · simp [entryAt, procT, List.getElem?_map, hy']

/-- An eligible aircraft named "X" of class 1. -/
def planeX5 : Plane :=
  { name := "X", pos := 1, class_num := 1, delay_cost := 1, landed := false,
    speed := 1, max_delay := 1000, swap_time := 10, apt := some 0,
    pred := none, arr_time := none, eta := 10, delay := 0, arrived := true,
    path := [1], id_arr := 0 }

/-- A distinct eligible aircraft also named "X", of class 2. -/
def planeY5 : Plane :=
  { name := "X", pos := 2, class_num := 2, delay_cost := 1, landed := false,
    speed := 1, max_delay := 1000, swap_time := 10, apt := some 0,
    pred := none, arr_time := none, eta := 20, delay := 0, arrived := true,
    path := [2], id_arr := 0 }

/-- A concrete separation lookup with `sepEx 0 1 = 7`. -/
def sepEx : ℕ → ℕ → ℚ :=
  fun i j => if i = 0 ∧ j = 1 then 7 else 3

/-- C5 counterexample: the two distinct eligible aircraft at positions 0
and 1 share the name "X", so the source's name comparison forces their
off-diagonal processing-time entry to 0 instead of the Separation-Matrix
lookup 7 on their classes. -/
theorem procT_counterexample :
    entryAt (procT sepEx [planeX5, planeY5]) 0 1 = some 0 ∧
    sepEx (planeX5.class_num - 1) (planeY5.class_num - 1) = 7 ∧
    (0 : ℚ) ≠ 7 := by
  refine ⟨by decide, by decide, by norm_num⟩

/-- An eligible aircraft named "V" of class 1. -/
def planeV5 : Plane :=
  { name := "V", pos := 1, class_num := 1, delay_cost := 1, landed := false,
    speed := 1, max_delay := 1000, swap_time := 10, apt := some 0,
    pred := none, arr_time := none, eta := 10, delay := 0, arrived := true,
    path := [1], id_arr := 0 }

/-- An eligible aircraft named "W" of class 2. -/
def planeW5 : Plane :=
  { name := "W", pos := 2, class_num := 2, delay_cost := 1, landed := false,
    speed := 1, max_delay := 1000, swap_time := 10, apt := some 0,
    pred := none, arr_time := none, eta := 20, delay := 0, arrived := true,
    path := [2], id_arr := 0 }

/-- C5 witness: with pairwise-distinct names, the off-diagonal entry is
the Separation-Matrix lookup and the diagonal entry is 0. -/
theorem procT_matches_separation_witness :
    entryAt (procT sepEx [planeV5, planeW5]) 0 1 =
      some (sepEx (planeV5.class_num - 1) (planeW5.class_num - 1)) ∧
    entryAt (procT sepEx [planeV5, planeW5]) 1 1 = some 0 :=
  procT_matches_separation sepEx [planeV5, planeW5] (by decide) 0 1
    planeV5 planeW5 rfl rfl (by omega)

/-- C9: a physics aircraft constructed with a destination airport starts
with ETA equal to its (geodesic) distance to the airport divided by its
speed, plus — when a predecessor is supplied — the predecessor's current
ETA plus the fixed offset 10. -/
theorem init_eta_formula (nm : String) (pos : ℚ) (cn : ℕ) (a : ℚ)
    (dc sp md st : ℚ) (at0 : Option ℚ) (pred : Option Plane)
    (pIdx : Option ℕ) :
    (mkPlane nm pos cn (some a) dc sp md st at0 pred pIdx).eta =
      distQ pos a / sp +
        (match pred with
         | some pr => pr.eta + 10
         | none => 0) := by
  cases pred <;> simp [mkPlane, Plane.get_eta]

/-- C10: an aircraft is arrived immediately at construction iff its
configured arrival time is absent or at most 1; moreover every member of
the eligible set of a cycle is arrived (so an unarrived aircraft is
excluded from scheduling). -/
theorem arrived_iff_no_late_arr_time (nm : String) (pos : ℚ) (cn : ℕ)
    (apt : Option ℚ) (dc sp md st : ℚ) (at0 : Option ℚ)
    (pred : Option Plane) (pIdx : Option ℕ) (fleet : List Plane)
    (pl : Plane) :
    ((mkPlane nm pos cn apt dc sp md st at0 pred pIdx).arrived = true ↔
      (at0 = none ∨ at0.getD 0 ≤ 1)) ∧
    (pl ∈ validOf fleet → pl.arrived = true) := by
  constructor
  · have harr : (mkPlane nm pos cn apt dc sp md st at0 pred pIdx).arrived =
        arrivedInit at0 := by
      cases apt <;> cases pred <;> rfl
    rw [harr]
    cases at0 with
    | none => simp [arrivedInit]
    | some t =>
      simp only [arrivedInit, Option.getD_some]
      split_ifs with ht
      · simp [not_le.mpr ht]
      · simp [not_lt.mp ht]
  · intro hm
    simp only [validOf, List.mem_filter, Bool.and_eq_true,
      Bool.not_eq_true'] at hm
    exact hm.2.2

/-- An arrived, unlanded aircraft used by the C10 witness. -/
def planeW10 : Plane :=
  { name := "E", pos := 6, class_num := 1, delay_cost := 1, landed := false,
    speed := 1, max_delay := 1000, swap_time := 10, apt := some 0,
    pred := none, arr_time := none, eta := 12, delay := 0, arrived := true,
    path := [6], id_arr := 0 }

/-- C10 witness: an aircraft constructed with arrival time 1 is arrived at
once, and the eligible `planeW10` is arrived. -/
theorem arrived_iff_no_late_arr_time_witness :
    (mkPlane "W" 0 1 (some 0) 1 13000 1000 10 (some 1) none none).arrived
      = true ∧
    planeW10.arrived = true :=
  ⟨(arrived_iff_no_late_arr_time "W" 0 1 (some 0) 1 13000 1000 10 (some 1)
      none none [planeW10] planeW10).1.mpr (Or.inr (by simp)),
   (arrived_iff_no_late_arr_time "W" 0 1 (some 0) 1 13000 1000 10 (some 1)
      none none [planeW10] planeW10).2 (by decide)⟩
